import Mathlib

/-!
# Verification of the `lysogeny-broth` cellular-automaton engine

Shallow embedding of `src/lib.rs` (the `dead-alive-only` feature
configuration, which is the binary reference design of the spec):

* `CellState` embeds the binary cell state enum.
* `Grid` embeds the `Grid` struct: the configured sizes and the backing
  cell store.  The Rust backing store is a statically reserved
  255×255 array `cells[h][v]`; we embed it as a total function
  `Nat → Nat → CellState` (cells outside the configured size exist and
  default to `Dead`, exactly as in the reserved array).
* Rust `panic!` is embedded as `Except GridError`: the panics in
  `Grid::new` are the spec's `InvalidDimension` condition, the panics in
  the accessors and neighbor functions are `CoordinateOutOfRange`.
* `Universe` embeds the `Universe` struct; its `update` embeds the two
  nested `for` loops of `Universe::update` as structural recursions over
  the loop counter (iteration order preserved: indices run upward).
-/

/-- Binary cell state (`dead-alive-only` feature of the Rust source). -/
inductive CellState where
  /-- represents a dead cell -/
  | Dead : CellState
  /-- represents a living cell -/
  | Alive : CellState
deriving Repr, DecidableEq

/-- The failure conditions of the engine (the spec's error taxonomy,
realised in the Rust source as `panic!` calls). -/
inductive GridError where
  /-- construction requested a zero size or a size exceeding capacity -/
  | InvalidDimension : GridError
  /-- an accessor or neighbor function received a coordinate out of bounds -/
  | CoordinateOutOfRange : GridError
deriving Repr, DecidableEq

/-- `const VERTICAL_MAX: usize = u8::MAX as usize;` -/
def VERTICAL_MAX : Nat := 255

/-- `const HORIZONTAL_MAX: usize = u8::MAX as usize;` -/
def HORIZONTAL_MAX : Nat := 255

/-- The `Grid` struct: configured sizes (`u8` in Rust, embedded as `Nat`
with explicit `≤ 255` bounds where the u8 range matters) and the cell
store `cells[h][v]`. -/
structure Grid where
  /-- configured horizontal size -/
  horizontal_size : Nat
  /-- configured vertical size -/
  vertical_size : Nat
  /-- the backing cell store, addressed as `cells h v` -/
  cells : Nat → Nat → CellState

/-- Two grids with the same sizes and pointwise equal cell stores are equal. -/
theorem Grid.eq_of_parts {g₁ g₂ : Grid}
    (hh : g₁.horizontal_size = g₂.horizontal_size)
    (hv : g₁.vertical_size = g₂.vertical_size)
    (hc : ∀ a b, g₁.cells a b = g₂.cells a b) : g₁ = g₂ := by
  cases g₁
  cases g₂
  simp only [Grid.mk.injEq]
  refine ⟨hh, hv, ?_⟩
  funext a b
  exact hc a b

/-- `Grid::new`: fails (`panic!`) when a size is 0 or exceeds the reserved
capacity; otherwise every cell holds the default `Dead` state. -/
def Grid.new (h_size v_size : Nat) : Except GridError Grid :=
  if h_size = 0 then .error .InvalidDimension
  else if v_size = 0 then .error .InvalidDimension
  else if HORIZONTAL_MAX < h_size then .error .InvalidDimension
  else if VERTICAL_MAX < v_size then .error .InvalidDimension
  else .ok { horizontal_size := h_size
             vertical_size := v_size
             cells := fun _ _ => CellState.Dead }

/-- `Grid::get_horizontal_size` -/
def Grid.get_horizontal_size (g : Grid) : Nat := g.horizontal_size

/-- `Grid::get_vertical_size` -/
def Grid.get_vertical_size (g : Grid) : Nat := g.vertical_size

/-- `Grid::get_cellstate`: bounds-checked read. -/
def Grid.get_cellstate (g : Grid) (h v : Nat) : Except GridError CellState :=
  if h ≥ g.horizontal_size then .error .CoordinateOutOfRange
  else if v ≥ g.vertical_size then .error .CoordinateOutOfRange
  else .ok (g.cells h v)

/-- `Grid::get_cellstate_hv`: tuple form of `get_cellstate`. -/
def Grid.get_cellstate_hv (g : Grid) (hv : Nat × Nat) : Except GridError CellState :=
  g.get_cellstate hv.1 hv.2

/-- `Grid::set_cellstate`: bounds-checked write of one cell. -/
def Grid.set_cellstate (g : Grid) (h v : Nat) (state : CellState) :
    Except GridError Grid :=
  if h ≥ g.horizontal_size then .error .CoordinateOutOfRange
  else if v ≥ g.vertical_size then .error .CoordinateOutOfRange
  else .ok { g with cells := fun a b => if a = h ∧ b = v then state else g.cells a b }

/-- `Grid::set_cellstate_hv`: tuple form of `set_cellstate`. -/
def Grid.set_cellstate_hv (g : Grid) (hv : Nat × Nat) (state : CellState) :
    Except GridError Grid :=
  g.set_cellstate hv.1 hv.2 state

/-- `Grid::get_north_coordinate`: toroidal northern neighbor. -/
def Grid.get_north_coordinate (g : Grid) (h v : Nat) :
    Except GridError (Nat × Nat) :=
  if h ≥ g.horizontal_size then .error .CoordinateOutOfRange
  else if v ≥ g.vertical_size then .error .CoordinateOutOfRange
  else if v = 0 then .ok (h, g.vertical_size - 1)
  else .ok (h, v - 1)

/-- `Grid::get_north_coordinate_hv` -/
def Grid.get_north_coordinate_hv (g : Grid) (hv : Nat × Nat) :
    Except GridError (Nat × Nat) :=
  g.get_north_coordinate hv.1 hv.2

/-- `Grid::get_east_coordinate`: toroidal eastern neighbor. -/
def Grid.get_east_coordinate (g : Grid) (h v : Nat) :
    Except GridError (Nat × Nat) :=
  if h ≥ g.horizontal_size then .error .CoordinateOutOfRange
  else if v ≥ g.vertical_size then .error .CoordinateOutOfRange
  else if h = g.horizontal_size - 1 then .ok (0, v)
  else .ok (h + 1, v)

/-- `Grid::get_east_coordinate_hv` -/
def Grid.get_east_coordinate_hv (g : Grid) (hv : Nat × Nat) :
    Except GridError (Nat × Nat) :=
  g.get_east_coordinate hv.1 hv.2

/-- `Grid::get_south_coordinate`: toroidal southern neighbor. -/
def Grid.get_south_coordinate (g : Grid) (h v : Nat) :
    Except GridError (Nat × Nat) :=
  if h ≥ g.horizontal_size then .error .CoordinateOutOfRange
  else if v ≥ g.vertical_size then .error .CoordinateOutOfRange
  else if v = g.vertical_size - 1 then .ok (h, 0)
  else .ok (h, v + 1)

/-- `Grid::get_south_coordinate_hv` -/
def Grid.get_south_coordinate_hv (g : Grid) (hv : Nat × Nat) :
    Except GridError (Nat × Nat) :=
  g.get_south_coordinate hv.1 hv.2

/-- `Grid::get_west_coordinate`: toroidal western neighbor. -/
def Grid.get_west_coordinate (g : Grid) (h v : Nat) :
    Except GridError (Nat × Nat) :=
  if h ≥ g.horizontal_size then .error .CoordinateOutOfRange
  else if v ≥ g.vertical_size then .error .CoordinateOutOfRange
  else if h = 0 then .ok (g.horizontal_size - 1, v)
  else .ok (h - 1, v)

/-- `Grid::get_west_coordinate_hv` -/
def Grid.get_west_coordinate_hv (g : Grid) (hv : Nat × Nat) :
    Except GridError (Nat × Nat) :=
  g.get_west_coordinate hv.1 hv.2

/-- `Grid::get_northeast_coordinate`:
`self.get_north_coordinate_hv(self.get_east_coordinate(h, v))` — a panic
inside `get_east_coordinate` propagates, hence the `bind`. -/
def Grid.get_northeast_coordinate (g : Grid) (h v : Nat) :
    Except GridError (Nat × Nat) :=
  (g.get_east_coordinate h v).bind g.get_north_coordinate_hv

/-- `Grid::get_northeast_coordinate_hv` -/
def Grid.get_northeast_coordinate_hv (g : Grid) (hv : Nat × Nat) :
    Except GridError (Nat × Nat) :=
  (g.get_east_coordinate hv.1 hv.2).bind g.get_north_coordinate_hv

/-- `Grid::get_southeast_coordinate` -/
def Grid.get_southeast_coordinate (g : Grid) (h v : Nat) :
    Except GridError (Nat × Nat) :=
  (g.get_east_coordinate h v).bind g.get_south_coordinate_hv

/-- `Grid::get_southeast_coordinate_hv` -/
def Grid.get_southeast_coordinate_hv (g : Grid) (hv : Nat × Nat) :
    Except GridError (Nat × Nat) :=
  (g.get_east_coordinate hv.1 hv.2).bind g.get_south_coordinate_hv

/-- `Grid::get_southwest_coordinate` -/
def Grid.get_southwest_coordinate (g : Grid) (h v : Nat) :
    Except GridError (Nat × Nat) :=
  (g.get_west_coordinate h v).bind g.get_south_coordinate_hv

/-- `Grid::get_southwest_coordinate_hv` -/
def Grid.get_southwest_coordinate_hv (g : Grid) (hv : Nat × Nat) :
    Except GridError (Nat × Nat) :=
  (g.get_west_coordinate hv.1 hv.2).bind g.get_south_coordinate_hv

/-- `Grid::get_northwest_coordinate` -/
def Grid.get_northwest_coordinate (g : Grid) (h v : Nat) :
    Except GridError (Nat × Nat) :=
  (g.get_west_coordinate h v).bind g.get_north_coordinate_hv

/-- `Grid::get_northwest_coordinate_hv` -/
def Grid.get_northwest_coordinate_hv (g : Grid) (hv : Nat × Nat) :
    Except GridError (Nat × Nat) :=
  (g.get_west_coordinate hv.1 hv.2).bind g.get_north_coordinate_hv

/-- The `Universe` struct: live grid, shadow grid and the transition rule
(`fn(u8, u8, &Grid) -> CellState` in Rust, a total function there as well). -/
structure Universe where
  /-- the current (live) grid -/
  grid : Grid
  /-- temporary internal grid used while computing the next generation -/
  shadow : Grid
  /-- the transformation function / cellular automaton -/
  automaton : Nat → Nat → Grid → CellState

/-- `Universe::new`: builds both grids via `Grid::new`, so an
`InvalidDimension` failure of grid construction propagates. -/
def Universe.new (h_size v_size : Nat)
    (rules : Nat → Nat → Grid → CellState) : Except GridError Universe := do
  let g ← Grid.new h_size v_size
  let s ← Grid.new h_size v_size
  pure { grid := g, shadow := s, automaton := rules }

/-- Inner loop of the first phase of `Universe::update`:
`for v in 0..n { shadow.set_cellstate(h, v, rules(h, v, grid)) }`,
iterating `v = 0, 1, …, n-1` over the (immutable) live grid `g` and
threading the shadow grid accumulator. -/
def updatePhase1Inner (rules : Nat → Nat → Grid → CellState) (g : Grid)
    (h : Nat) : Nat → Grid → Except GridError Grid
  | 0, sh => .ok sh
  | n + 1, sh => do
      let sh' ← updatePhase1Inner rules g h n sh
      sh'.set_cellstate h n (rules h n g)

/-- Outer loop of the first phase of `Universe::update`:
`for h in 0..n { for v in 0..vmax { … } }`, iterating `h = 0, 1, …, n-1`. -/
def updatePhase1Outer (rules : Nat → Nat → Grid → CellState) (g : Grid)
    (vmax : Nat) : Nat → Grid → Except GridError Grid
  | 0, sh => .ok sh
  | n + 1, sh => do
      let sh' ← updatePhase1Outer rules g vmax n sh
      updatePhase1Inner rules g n vmax sh'

/-- Inner loop of the second (copy) phase of `Universe::update`:
`for v in 0..n { let state = shadow.get_cellstate(h, v); grid.set_cellstate(h, v, *state) }`. -/
def updatePhase2Inner (sh : Grid) (h : Nat) : Nat → Grid → Except GridError Grid
  | 0, g => .ok g
  | n + 1, g => do
      let g' ← updatePhase2Inner sh h n g
      let state ← sh.get_cellstate h n
      g'.set_cellstate h n state

/-- Outer loop of the second (copy) phase of `Universe::update`. -/
def updatePhase2Outer (sh : Grid) (vmax : Nat) : Nat → Grid → Except GridError Grid
  | 0, g => .ok g
  | n + 1, g => do
      let g' ← updatePhase2Outer sh vmax n g
      updatePhase2Inner sh n vmax g'

/-- `Universe::update`: compute the next generation into the shadow grid
from the frozen live grid, then copy the shadow contents back into the
live grid.  Both loop bounds come from the live grid's sizes (which no
`set_cellstate` call changes, so reading them once is faithful to the
Rust `for` ranges). -/
def Universe.update (u : Universe) : Except GridError Universe := do
  let sh ← updatePhase1Outer u.automaton u.grid u.grid.vertical_size
    u.grid.horizontal_size u.shadow
  let g ← updatePhase2Outer sh u.grid.vertical_size
    u.grid.horizontal_size u.grid
  pure { grid := g, shadow := sh, automaton := u.automaton }

/-- Iterated `update` (`n` successive calls), for the end-to-end scenarios. -/
def Universe.updateN (u : Universe) : Nat → Except GridError Universe
  | 0 => .ok u
  | n + 1 => (u.updateN n).bind Universe.update

/-! ## Characterization lemmas -/

/-- Binding a successful `Except` computation just applies the continuation. -/
theorem exceptOk_bind {ε α β : Type} (a : α) (f : α → Except ε β) :
    Bind.bind (Except.ok a) f = f a := rfl

/-- An in-bounds `get_cellstate` returns the stored cell. -/
theorem Grid.get_cellstate_ok (g : Grid) {h v : Nat}
    (hh : h < g.horizontal_size) (hv : v < g.vertical_size) :
    g.get_cellstate h v = .ok (g.cells h v) := by
  simp [Grid.get_cellstate, Nat.not_le.mpr hh, Nat.not_le.mpr hv]

/-- An in-bounds `set_cellstate` succeeds and updates exactly one cell. -/
theorem Grid.set_cellstate_ok (g : Grid) (h v : Nat) (s : CellState)
    (hh : h < g.horizontal_size) (hv : v < g.vertical_size) :
    g.set_cellstate h v s =
      .ok { g with cells := fun a b => if a = h ∧ b = v then s else g.cells a b } := by
  simp [Grid.set_cellstate, Nat.not_le.mpr hh, Nat.not_le.mpr hv]

/-- The first-phase inner loop over `v = 0, …, n-1` succeeds when the
writes stay in the shadow grid's bounds, and its effect is pointwise:
row `h` below `n` holds the rule's values, all other cells are untouched. -/
theorem updatePhase1Inner_ok (rules : Nat → Nat → Grid → CellState)
    (g : Grid) (h : Nat) (n : Nat) (sh : Grid)
    (hh : h < sh.horizontal_size) (hn : n ≤ sh.vertical_size) :
    updatePhase1Inner rules g h n sh =
      .ok { sh with cells := fun a b =>
              if a = h ∧ b < n then rules a b g else sh.cells a b } := by
  induction n with
  | zero =>
      simp only [updatePhase1Inner]
      refine congrArg Except.ok (Grid.eq_of_parts rfl rfl fun a b => ?_)
      simp
  | succ n ih =>
      have hn' : n ≤ sh.vertical_size := Nat.le_of_succ_le hn
      simp only [updatePhase1Inner, ih hn', exceptOk_bind]
      rw [Grid.set_cellstate_ok
        { sh with cells := fun a b =>
            if a = h ∧ b < n then rules a b g else sh.cells a b }
        h n (rules h n g) hh (Nat.lt_of_succ_le hn)]
      refine congrArg Except.ok (Grid.eq_of_parts rfl rfl fun a b => ?_)
      by_cases ha : a = h
      · subst ha
        by_cases hb : b = n
        · subst hb
          simp [Nat.lt_succ_self]
        · by_cases hb' : b < n
          · simp [hb, hb', Nat.lt_succ_of_lt hb']
          · simp [hb, hb', show ¬ b < n + 1 by omega]
      · simp [ha]

/-- The first-phase outer loop over `h = 0, …, n-1` succeeds when the
rectangle `n × vmax` lies in the shadow grid's bounds, and fills that
rectangle with the rule evaluated on the frozen live grid `g`. -/
theorem updatePhase1Outer_ok (rules : Nat → Nat → Grid → CellState)
    (g : Grid) (vmax n : Nat) (sh : Grid)
    (hn : n ≤ sh.horizontal_size) (hv : vmax ≤ sh.vertical_size) :
    updatePhase1Outer rules g vmax n sh =
      .ok { sh with cells := fun a b =>
              if a < n ∧ b < vmax then rules a b g else sh.cells a b } := by
  induction n with
  | zero =>
      simp only [updatePhase1Outer]
      refine congrArg Except.ok (Grid.eq_of_parts rfl rfl fun a b => ?_)
      simp
  | succ n ih =>
      have hn' : n ≤ sh.horizontal_size := Nat.le_of_succ_le hn
      simp only [updatePhase1Outer, ih hn', exceptOk_bind]
      rw [updatePhase1Inner_ok rules g n vmax
        { sh with cells := fun a b =>
            if a < n ∧ b < vmax then rules a b g else sh.cells a b }
        (Nat.lt_of_succ_le hn) hv]
      refine congrArg Except.ok (Grid.eq_of_parts rfl rfl fun a b => ?_)
      by_cases hb : b < vmax
      · by_cases ha : a = n
        · subst ha
          simp [hb, Nat.lt_succ_self]
        · by_cases ha' : a < n
          · simp [ha, ha', hb, Nat.lt_succ_of_lt ha']
          · simp [ha, ha', hb, show ¬ a < n + 1 by omega]
      · simp [hb]

/-- The copy-phase inner loop succeeds when row `h` below `n` is in
bounds of both grids, and copies exactly those shadow cells into `g`. -/
theorem updatePhase2Inner_ok (sh : Grid) (h n : Nat) (g : Grid)
    (hhs : h < sh.horizontal_size) (hns : n ≤ sh.vertical_size)
    (hhg : h < g.horizontal_size) (hng : n ≤ g.vertical_size) :
    updatePhase2Inner sh h n g =
      .ok { g with cells := fun a b =>
              if a = h ∧ b < n then sh.cells a b else g.cells a b } := by
  induction n with
  | zero =>
      simp only [updatePhase2Inner]
      refine congrArg Except.ok (Grid.eq_of_parts rfl rfl fun a b => ?_)
      simp
  | succ n ih =>
      have hns' : n ≤ sh.vertical_size := Nat.le_of_succ_le hns
      have hng' : n ≤ g.vertical_size := Nat.le_of_succ_le hng
      simp only [updatePhase2Inner, ih hns' hng', exceptOk_bind]
      rw [Grid.get_cellstate_ok sh hhs (Nat.lt_of_succ_le hns), exceptOk_bind]
      rw [Grid.set_cellstate_ok
        { g with cells := fun a b =>
            if a = h ∧ b < n then sh.cells a b else g.cells a b }
        h n (sh.cells h n) hhg (Nat.lt_of_succ_le hng)]
      refine congrArg Except.ok (Grid.eq_of_parts rfl rfl fun a b => ?_)
      by_cases ha : a = h
      · subst ha
        by_cases hb : b = n
        · subst hb
          simp [Nat.lt_succ_self]
        · by_cases hb' : b < n
          · simp [hb, hb', Nat.lt_succ_of_lt hb']
          · simp [hb, hb', show ¬ b < n + 1 by omega]
      · simp [ha]

/-- The copy-phase outer loop succeeds when the `n × vmax` rectangle is
in bounds of both grids, and copies that rectangle from `sh` into `g`. -/
theorem updatePhase2Outer_ok (sh : Grid) (vmax n : Nat) (g : Grid)
    (hns : n ≤ sh.horizontal_size) (hvs : vmax ≤ sh.vertical_size)
    (hng : n ≤ g.horizontal_size) (hvg : vmax ≤ g.vertical_size) :
    updatePhase2Outer sh vmax n g =
      .ok { g with cells := fun a b =>
              if a < n ∧ b < vmax then sh.cells a b else g.cells a b } := by
  induction n with
  | zero =>
      simp only [updatePhase2Outer]
      refine congrArg Except.ok (Grid.eq_of_parts rfl rfl fun a b => ?_)
      simp
  | succ n ih =>
      have hns' : n ≤ sh.horizontal_size := Nat.le_of_succ_le hns
      have hng' : n ≤ g.horizontal_size := Nat.le_of_succ_le hng
      simp only [updatePhase2Outer, ih hns' hng', exceptOk_bind]
      rw [updatePhase2Inner_ok sh n vmax
        { g with cells := fun a b =>
            if a < n ∧ b < vmax then sh.cells a b else g.cells a b }
        (Nat.lt_of_succ_le hns) hvs (Nat.lt_of_succ_le hng) hvg]
      refine congrArg Except.ok (Grid.eq_of_parts rfl rfl fun a b => ?_)
      by_cases hb : b < vmax
      · by_cases ha : a = n
        · subst ha
          simp [hb, Nat.lt_succ_self]
        · by_cases ha' : a < n
          · simp [ha, ha', hb, Nat.lt_succ_of_lt ha']
          · simp [ha, ha', hb, show ¬ a < n + 1 by omega]
      · simp [hb]

/-- A `pure` in the `Except` monad is an `Except.ok`. -/
theorem exceptPure_eq_ok {ε α : Type} (a : α) :
    (pure a : Except ε α) = Except.ok a := rfl

/-- Two universes with equal components are equal. -/
theorem Universe.eq_of_fields {u₁ u₂ : Universe}
    (hg : u₁.grid = u₂.grid) (hs : u₁.shadow = u₂.shadow)
    (ha : u₁.automaton = u₂.automaton) : u₁ = u₂ := by
  cases u₁
  cases u₂
  simp only [Universe.mk.injEq]
  exact ⟨hg, hs, ha⟩

/-- Master characterization of `Universe::update`: when the shadow grid
has the live grid's dimensions (the `Universe` invariant), `update`
succeeds, and the new live grid holds, at every in-bounds coordinate, the
rule evaluated on the pre-step live grid; out-of-bounds backing cells and
the dimensions are unchanged, and so is the rule. -/
theorem Universe.update_ok (u : Universe)
    (hH : u.shadow.horizontal_size = u.grid.horizontal_size)
    (hV : u.shadow.vertical_size = u.grid.vertical_size) :
    u.update = .ok
      { grid := { u.grid with cells := fun a b =>
            if a < u.grid.horizontal_size ∧ b < u.grid.vertical_size then u.automaton a b u.grid else u.grid.cells a b },
        shadow := { u.shadow with cells := fun a b =>
            if a < u.grid.horizontal_size ∧ b < u.grid.vertical_size then u.automaton a b u.grid else u.shadow.cells a b },
        automaton := u.automaton } := by
  have hH' : u.grid.horizontal_size ≤ u.shadow.horizontal_size :=
    Nat.le_of_eq hH.symm
  have hV' : u.grid.vertical_size ≤ u.shadow.vertical_size :=
    Nat.le_of_eq hV.symm
  simp only [Universe.update]
  rw [updatePhase1Outer_ok u.automaton u.grid u.grid.vertical_size
    u.grid.horizontal_size u.shadow hH' hV', exceptOk_bind]
  rw [updatePhase2Outer_ok
    { u.shadow with cells := fun a b =>
        if a < u.grid.horizontal_size ∧ b < u.grid.vertical_size then u.automaton a b u.grid else u.shadow.cells a b }
    u.grid.vertical_size u.grid.horizontal_size u.grid
    hH' hV' (Nat.le_refl _) (Nat.le_refl _), exceptOk_bind]
  rw [exceptPure_eq_ok]
  refine congrArg Except.ok (Universe.eq_of_fields ?_ rfl rfl)
  refine Grid.eq_of_parts rfl rfl fun a b => ?_
  by_cases hab : a < u.grid.horizontal_size ∧ b < u.grid.vertical_size
  · simp [hab]
  · simp [hab]

/-- Binding a failed `Except` computation propagates the error. -/
theorem exceptError_bind {ε α β : Type} (e : ε) (f : α → Except ε β) :
    Bind.bind (Except.error e : Except ε α) f = Except.error e := rfl

/-- A successful `Grid::new` returns the requested sizes with every
backing cell holding the default `Dead` state. -/
theorem Grid.new_ok_parts {h v : Nat} {g : Grid} (hg : Grid.new h v = .ok g) :
    g.horizontal_size = h ∧ g.vertical_size = v ∧
    ∀ a b, g.cells a b = CellState.Dead := by
  unfold Grid.new at hg
  split_ifs at hg
  cases hg
  exact ⟨rfl, rfl, fun a b => rfl⟩

/-- `Grid::new` succeeds on nonzero sizes within the reserved capacity. -/
theorem Grid.new_ok_of (h v : Nat) (h0 : h ≠ 0) (v0 : v ≠ 0)
    (hmax : h ≤ HORIZONTAL_MAX) (vmax : v ≤ VERTICAL_MAX) :
    Grid.new h v = .ok (Grid.mk h v (fun _ _ => CellState.Dead)) := by
  unfold Grid.new
  rw [if_neg h0, if_neg v0, if_neg (Nat.not_lt.mpr hmax),
    if_neg (Nat.not_lt.mpr vmax)]

/-- The northern neighbor of an in-bounds coordinate is in bounds. -/
theorem Grid.get_north_coordinate_in_bounds (g : Grid) {h v : Nat}
    (hh : h < g.horizontal_size) (hv : v < g.vertical_size) :
    ∃ p, g.get_north_coordinate h v = .ok p ∧
      p.1 < g.horizontal_size ∧ p.2 < g.vertical_size := by
  unfold Grid.get_north_coordinate
  rw [if_neg (Nat.not_le.mpr hh), if_neg (Nat.not_le.mpr hv)]
  by_cases hz : v = 0
  · rw [if_pos hz]
    exact ⟨_, rfl, hh, by omega⟩
  · rw [if_neg hz]
    exact ⟨_, rfl, hh, by omega⟩

/-- The eastern neighbor of an in-bounds coordinate is in bounds. -/
theorem Grid.get_east_coordinate_in_bounds (g : Grid) {h v : Nat}
    (hh : h < g.horizontal_size) (hv : v < g.vertical_size) :
    ∃ p, g.get_east_coordinate h v = .ok p ∧
      p.1 < g.horizontal_size ∧ p.2 < g.vertical_size := by
  unfold Grid.get_east_coordinate
  rw [if_neg (Nat.not_le.mpr hh), if_neg (Nat.not_le.mpr hv)]
  by_cases hz : h = g.horizontal_size - 1
  · rw [if_pos hz]
    exact ⟨_, rfl, by omega, hv⟩
  · rw [if_neg hz]
    exact ⟨_, rfl, by omega, hv⟩

/-- The southern neighbor of an in-bounds coordinate is in bounds. -/
theorem Grid.get_south_coordinate_in_bounds (g : Grid) {h v : Nat}
    (hh : h < g.horizontal_size) (hv : v < g.vertical_size) :
    ∃ p, g.get_south_coordinate h v = .ok p ∧
      p.1 < g.horizontal_size ∧ p.2 < g.vertical_size := by
  unfold Grid.get_south_coordinate
  rw [if_neg (Nat.not_le.mpr hh), if_neg (Nat.not_le.mpr hv)]
  by_cases hz : v = g.vertical_size - 1
  · rw [if_pos hz]
    exact ⟨_, rfl, hh, by omega⟩
  · rw [if_neg hz]
    exact ⟨_, rfl, hh, by omega⟩

/-- The western neighbor of an in-bounds coordinate is in bounds. -/
theorem Grid.get_west_coordinate_in_bounds (g : Grid) {h v : Nat}
    (hh : h < g.horizontal_size) (hv : v < g.vertical_size) :
    ∃ p, g.get_west_coordinate h v = .ok p ∧
      p.1 < g.horizontal_size ∧ p.2 < g.vertical_size := by
  unfold Grid.get_west_coordinate
  rw [if_neg (Nat.not_le.mpr hh), if_neg (Nat.not_le.mpr hv)]
  by_cases hz : h = 0
  · rw [if_pos hz]
    exact ⟨_, rfl, by omega, hv⟩
  · rw [if_neg hz]
    exact ⟨_, rfl, by omega, hv⟩

/-- The northeastern neighbor of an in-bounds coordinate is in bounds. -/
theorem Grid.get_northeast_coordinate_in_bounds (g : Grid) {h v : Nat}
    (hh : h < g.horizontal_size) (hv : v < g.vertical_size) :
    ∃ p, g.get_northeast_coordinate h v = .ok p ∧
      p.1 < g.horizontal_size ∧ p.2 < g.vertical_size := by
  obtain ⟨p, hp, hp1, hp2⟩ := g.get_east_coordinate_in_bounds hh hv
  obtain ⟨q, hq, hq1, hq2⟩ := g.get_north_coordinate_in_bounds hp1 hp2
  refine ⟨q, ?_, hq1, hq2⟩
  unfold Grid.get_northeast_coordinate
  rw [hp]
  exact hq

/-- The southeastern neighbor of an in-bounds coordinate is in bounds. -/
theorem Grid.get_southeast_coordinate_in_bounds (g : Grid) {h v : Nat}
    (hh : h < g.horizontal_size) (hv : v < g.vertical_size) :
    ∃ p, g.get_southeast_coordinate h v = .ok p ∧
      p.1 < g.horizontal_size ∧ p.2 < g.vertical_size := by
  obtain ⟨p, hp, hp1, hp2⟩ := g.get_east_coordinate_in_bounds hh hv
  obtain ⟨q, hq, hq1, hq2⟩ := g.get_south_coordinate_in_bounds hp1 hp2
  refine ⟨q, ?_, hq1, hq2⟩
  unfold Grid.get_southeast_coordinate
  rw [hp]
  exact hq

/-- The southwestern neighbor of an in-bounds coordinate is in bounds. -/
theorem Grid.get_southwest_coordinate_in_bounds (g : Grid) {h v : Nat}
    (hh : h < g.horizontal_size) (hv : v < g.vertical_size) :
    ∃ p, g.get_southwest_coordinate h v = .ok p ∧
      p.1 < g.horizontal_size ∧ p.2 < g.vertical_size := by
  obtain ⟨p, hp, hp1, hp2⟩ := g.get_west_coordinate_in_bounds hh hv
  obtain ⟨q, hq, hq1, hq2⟩ := g.get_south_coordinate_in_bounds hp1 hp2
  refine ⟨q, ?_, hq1, hq2⟩
  unfold Grid.get_southwest_coordinate
  rw [hp]
  exact hq

/-- The northwestern neighbor of an in-bounds coordinate is in bounds. -/
theorem Grid.get_northwest_coordinate_in_bounds (g : Grid) {h v : Nat}
    (hh : h < g.horizontal_size) (hv : v < g.vertical_size) :
    ∃ p, g.get_northwest_coordinate h v = .ok p ∧
      p.1 < g.horizontal_size ∧ p.2 < g.vertical_size := by
  obtain ⟨p, hp, hp1, hp2⟩ := g.get_west_coordinate_in_bounds hh hv
  obtain ⟨q, hq, hq1, hq2⟩ := g.get_north_coordinate_in_bounds hp1 hp2
  refine ⟨q, ?_, hq1, hq2⟩
  unfold Grid.get_northwest_coordinate
  rw [hp]
  exact hq

/-- A sample 3×4 grid used to instantiate witnesses. -/
def sampleGrid : Grid := Grid.mk 3 4 (fun _ _ => CellState.Dead)

/-- A sample universe (2×3, all dead, constant-`Alive` rule) used to
instantiate witnesses. -/
def sampleUniverse : Universe :=
  { grid := Grid.mk 2 3 (fun _ _ => CellState.Dead)
    shadow := Grid.mk 2 3 (fun _ _ => CellState.Dead)
    automaton := fun _ _ _ => CellState.Alive }

/-! ## Claim theorems -/

/-- C1: for every Universe with valid dimensions (shadow grid sized like
the live grid, as `Universe::new` guarantees) and every rule, one
`update()` succeeds and produces a live grid whose state at every
in-bounds coordinate `(h, v)` equals the rule evaluated at `(h, v)` on
the live grid as it was before the call: every rule evaluation observes
only the pre-step grid, never a cell already updated this generation. -/
theorem universe_update_observes_pre_step_grid (u : Universe)
    (hH : u.shadow.horizontal_size = u.grid.horizontal_size)
    (hV : u.shadow.vertical_size = u.grid.vertical_size) :
    ∃ u', u.update = .ok u' ∧
      u'.grid.horizontal_size = u.grid.horizontal_size ∧
      u'.grid.vertical_size = u.grid.vertical_size ∧
      ∀ h v, h < u.grid.horizontal_size → v < u.grid.vertical_size →
        u'.grid.cells h v = u.automaton h v u.grid := by
  refine ⟨_, u.update_ok hH hV, rfl, rfl, fun h v hh hv => ?_⟩
  simp [hh, hv]

/-- C1 witness: the theorem applied to a concrete 2×3 universe. -/
theorem universe_update_observes_pre_step_grid_witness :
    ∃ u', sampleUniverse.update = .ok u' ∧
      u'.grid.horizontal_size = sampleUniverse.grid.horizontal_size ∧
      u'.grid.vertical_size = sampleUniverse.grid.vertical_size ∧
      ∀ h v, h < sampleUniverse.grid.horizontal_size →
        v < sampleUniverse.grid.vertical_size →
        u'.grid.cells h v = sampleUniverse.automaton h v sampleUniverse.grid :=
  universe_update_observes_pre_step_grid sampleUniverse rfl rfl

/-- C3: at every in-bounds coordinate, `west` undoes `east` and `north`
undoes `south` (the toroidal wrap is inverted by the opposite direction). -/
theorem west_east_north_south_inverse (g : Grid) (h v : Nat)
    (hh : h < g.horizontal_size) (hv : v < g.vertical_size) :
    (g.get_east_coordinate h v).bind g.get_west_coordinate_hv = .ok (h, v) ∧
    (g.get_south_coordinate h v).bind g.get_north_coordinate_hv = .ok (h, v) := by
  have hH1 : ¬ g.horizontal_size ≤ 0 := by omega
  have hV1 : ¬ g.vertical_size ≤ 0 := by omega
  constructor
  · by_cases he : h = g.horizontal_size - 1
    · rw [show g.get_east_coordinate h v = .ok (0, v) from by
        unfold Grid.get_east_coordinate
        rw [if_neg (Nat.not_le.mpr hh), if_neg (Nat.not_le.mpr hv), if_pos he]]
      show g.get_west_coordinate 0 v = .ok (h, v)
      unfold Grid.get_west_coordinate
      rw [if_neg hH1, if_neg (Nat.not_le.mpr hv), if_pos rfl, he]
    · rw [show g.get_east_coordinate h v = .ok (h + 1, v) from by
        unfold Grid.get_east_coordinate
        rw [if_neg (Nat.not_le.mpr hh), if_neg (Nat.not_le.mpr hv), if_neg he]]
      show g.get_west_coordinate (h + 1) v = .ok (h, v)
      have hh1 : ¬ g.horizontal_size ≤ h + 1 := by omega
      simp [Grid.get_west_coordinate, hh1, Nat.not_le.mpr hv]
  · by_cases hs : v = g.vertical_size - 1
    · rw [show g.get_south_coordinate h v = .ok (h, 0) from by
        unfold Grid.get_south_coordinate
        rw [if_neg (Nat.not_le.mpr hh), if_neg (Nat.not_le.mpr hv), if_pos hs]]
      show g.get_north_coordinate h 0 = .ok (h, v)
      unfold Grid.get_north_coordinate
      rw [if_neg (Nat.not_le.mpr hh), if_neg hV1, if_pos rfl, hs]
    · rw [show g.get_south_coordinate h v = .ok (h, v + 1) from by
        unfold Grid.get_south_coordinate
        rw [if_neg (Nat.not_le.mpr hh), if_neg (Nat.not_le.mpr hv), if_neg hs]]
      show g.get_north_coordinate h (v + 1) = .ok (h, v)
      have hv1 : ¬ g.vertical_size ≤ v + 1 := by omega
      simp [Grid.get_north_coordinate, Nat.not_le.mpr hh, hv1]

/-- C3 witness: the theorem applied on the sample 3×4 grid at (2, 3),
where both east and south wrap. -/
theorem west_east_north_south_inverse_witness :
    (sampleGrid.get_east_coordinate 2 3).bind sampleGrid.get_west_coordinate_hv =
      .ok (2, 3) ∧
    (sampleGrid.get_south_coordinate 2 3).bind sampleGrid.get_north_coordinate_hv =
      .ok (2, 3) :=
  west_east_north_south_inverse sampleGrid 2 3 (by decide) (by decide)

/-- C4: each diagonal neighbor function is exactly the composition of the
corresponding cardinal pair (so diagonal wrap agrees with cardinal wrap,
corners included). -/
theorem diagonal_neighbors_compositional (g : Grid) (h v : Nat)
    (_hh : h < g.horizontal_size) (_hv : v < g.vertical_size) :
    g.get_northeast_coordinate h v =
      (g.get_east_coordinate h v).bind (fun p => g.get_north_coordinate p.1 p.2) ∧
    g.get_southeast_coordinate h v =
      (g.get_east_coordinate h v).bind (fun p => g.get_south_coordinate p.1 p.2) ∧
    g.get_southwest_coordinate h v =
      (g.get_west_coordinate h v).bind (fun p => g.get_south_coordinate p.1 p.2) ∧
    g.get_northwest_coordinate h v =
      (g.get_west_coordinate h v).bind (fun p => g.get_north_coordinate p.1 p.2) :=
  ⟨rfl, rfl, rfl, rfl⟩

/-- C4 witness: the theorem applied at the corner (2, 0) of the sample
3×4 grid, where east wraps to column 0 and north wraps to row 3. -/
theorem diagonal_neighbors_compositional_witness :
    sampleGrid.get_northeast_coordinate 2 0 =
      (sampleGrid.get_east_coordinate 2 0).bind
        (fun p => sampleGrid.get_north_coordinate p.1 p.2) ∧
    sampleGrid.get_southeast_coordinate 2 0 =
      (sampleGrid.get_east_coordinate 2 0).bind
        (fun p => sampleGrid.get_south_coordinate p.1 p.2) ∧
    sampleGrid.get_southwest_coordinate 2 0 =
      (sampleGrid.get_west_coordinate 2 0).bind
        (fun p => sampleGrid.get_south_coordinate p.1 p.2) ∧
    sampleGrid.get_northwest_coordinate 2 0 =
      (sampleGrid.get_west_coordinate 2 0).bind
        (fun p => sampleGrid.get_north_coordinate p.1 p.2) :=
  diagonal_neighbors_compositional sampleGrid 2 0 (by decide) (by decide)

/-- C5 counterexample: on a 2×1 grid at coordinate (0, 0) the eastern
neighbor is (1, 0), so `h = 0` and `east(h,v).1 = h + 1` BOTH hold —
"exactly one of the two statements holds" is false as stated. -/
theorem exactly_one_wrap_counterexample :
    (Grid.new 2 1).bind (fun g => g.get_east_coordinate 0 0) = .ok (1, 0) ∧
    ¬ Xor' ((0 : Nat) = 0) ((1 : Nat) = 0 + 1) :=
  ⟨rfl, by simp [Xor']⟩

/-- C5 (amended): at every in-bounds coordinate, exactly one of
`h = horizontal_size - 1` and `east(h,v).1 = h + 1` holds (the claim's
`h = 0` is replaced by `h = horizontal_size - 1`, which the
counterexample forces), `west(0, v) = (horizontal_size - 1, v)`, and the
symmetric properties hold for north/south on the vertical axis. -/
theorem east_increments_unless_last_column (g : Grid) (h v : Nat)
    (hh : h < g.horizontal_size) (hv : v < g.vertical_size) :
    Xor' (h = g.horizontal_size - 1)
      ((g.get_east_coordinate h v).map Prod.fst = .ok (h + 1)) ∧
    g.get_west_coordinate 0 v = .ok (g.horizontal_size - 1, v) ∧
    Xor' (v = g.vertical_size - 1)
      ((g.get_south_coordinate h v).map Prod.snd = .ok (v + 1)) ∧
    g.get_north_coordinate h 0 = .ok (h, g.vertical_size - 1) := by
  have hH1 : ¬ g.horizontal_size ≤ 0 := by omega
  have hV1 : ¬ g.vertical_size ≤ 0 := by omega
  refine ⟨?_, ?_, ?_, ?_⟩
  · by_cases he : h = g.horizontal_size - 1
    · left
      refine ⟨he, ?_⟩
      unfold Grid.get_east_coordinate
      rw [if_neg (Nat.not_le.mpr hh), if_neg (Nat.not_le.mpr hv), if_pos he]
      intro hcontra
      simp only [Except.map] at hcontra
      cases hcontra
    · right
      refine ⟨?_, he⟩
      unfold Grid.get_east_coordinate
      rw [if_neg (Nat.not_le.mpr hh), if_neg (Nat.not_le.mpr hv), if_neg he]
      rfl
  · unfold Grid.get_west_coordinate
    rw [if_neg hH1, if_neg (Nat.not_le.mpr hv), if_pos rfl]
  · by_cases hs : v = g.vertical_size - 1
    · left
      refine ⟨hs, ?_⟩
      unfold Grid.get_south_coordinate
      rw [if_neg (Nat.not_le.mpr hh), if_neg (Nat.not_le.mpr hv), if_pos hs]
      intro hcontra
      simp only [Except.map] at hcontra
      cases hcontra
    · right
      refine ⟨?_, hs⟩
      unfold Grid.get_south_coordinate
      rw [if_neg (Nat.not_le.mpr hh), if_neg (Nat.not_le.mpr hv), if_neg hs]
      rfl
  · unfold Grid.get_north_coordinate
    rw [if_neg (Nat.not_le.mpr hh), if_neg hV1, if_pos rfl]

/-- C5 witness: the amended theorem applied on the sample 3×4 grid at
(1, 2), a coordinate where neither axis wraps. -/
theorem east_increments_unless_last_column_witness :
    Xor' (1 = sampleGrid.horizontal_size - 1)
      ((sampleGrid.get_east_coordinate 1 2).map Prod.fst = .ok (1 + 1)) ∧
    sampleGrid.get_west_coordinate 0 2 = .ok (sampleGrid.horizontal_size - 1, 2) ∧
    Xor' (2 = sampleGrid.vertical_size - 1)
      ((sampleGrid.get_south_coordinate 1 2).map Prod.snd = .ok (2 + 1)) ∧
    sampleGrid.get_north_coordinate 1 0 = .ok (1, sampleGrid.vertical_size - 1) :=
  east_increments_unless_last_column sampleGrid 1 2 (by decide) (by decide)

/-- C6: constructing a Grid (or a Universe, which propagates the Grid
failure) with a zero size, or a size exceeding the reserved capacity of
255, fails with `InvalidDimension`; on success every cell of the new
grid(s) holds the default `Dead` state. -/
theorem grid_universe_new_invalid_dimension (h v : Nat)
    (r : Nat → Nat → Grid → CellState) :
    ((h = 0 ∨ v = 0 ∨ HORIZONTAL_MAX < h ∨ VERTICAL_MAX < v) →
      Grid.new h v = .error .InvalidDimension ∧
      Universe.new h v r = .error .InvalidDimension) ∧
    (∀ g, Grid.new h v = .ok g → ∀ a b, g.cells a b = CellState.Dead) ∧
    (∀ u, Universe.new h v r = .ok u → ∀ a b,
      u.grid.cells a b = CellState.Dead ∧ u.shadow.cells a b = CellState.Dead) := by
  refine ⟨?_, ?_, ?_⟩
  · intro hcase
    have hng : Grid.new h v = .error .InvalidDimension := by
      unfold Grid.new HORIZONTAL_MAX VERTICAL_MAX
      unfold HORIZONTAL_MAX VERTICAL_MAX at hcase
      split_ifs <;> first | rfl | omega
    refine ⟨hng, ?_⟩
    unfold Universe.new
    rw [hng, exceptError_bind]
  · intro g hg
    exact (Grid.new_ok_parts hg).2.2
  · intro u hu
    unfold Universe.new at hu
    cases hng : Grid.new h v with
    | error e =>
        rw [hng, exceptError_bind] at hu
        cases hu
    | ok g =>
        rw [hng, exceptOk_bind, exceptOk_bind, exceptPure_eq_ok] at hu
        cases hu
        intro a b
        have hd := (Grid.new_ok_parts hng).2.2
        exact ⟨hd a b, hd a b⟩

/-- C6 witness: the theorem applied at sizes (0, 5): construction of both
a Grid and a Universe fails with `InvalidDimension`. -/
theorem grid_universe_new_invalid_dimension_witness :
    Grid.new 0 5 = .error .InvalidDimension ∧
    Universe.new 0 5 (fun _ _ _ => CellState.Alive) = .error .InvalidDimension :=
  (grid_universe_new_invalid_dimension 0 5 (fun _ _ _ => CellState.Alive)).1
    (Or.inl rfl)

/-- C7: calling `get_cellstate` or `set_cellstate` with an out-of-range
coordinate fails with `CoordinateOutOfRange` — the call returns no cell
and no modified grid, so nothing is silently wrapped or clamped. -/
theorem out_of_range_access_fails (g : Grid) (h v : Nat) (s : CellState)
    (hout : h ≥ g.horizontal_size ∨ v ≥ g.vertical_size) :
    g.get_cellstate h v = .error .CoordinateOutOfRange ∧
    g.set_cellstate h v s = .error .CoordinateOutOfRange := by
  obtain hout | hout := hout <;>
    exact ⟨by simp [Grid.get_cellstate, hout],
           by simp [Grid.set_cellstate, hout]⟩

/-- C7 witness: the theorem applied on the sample 3×4 grid at the
out-of-range coordinate (3, 0). -/
theorem out_of_range_access_fails_witness :
    sampleGrid.get_cellstate 3 0 = .error .CoordinateOutOfRange ∧
    sampleGrid.set_cellstate 3 0 CellState.Alive = .error .CoordinateOutOfRange :=
  out_of_range_access_fails sampleGrid 3 0 CellState.Alive (Or.inl (by decide))

/-- C8: an in-bounds `set_cellstate` succeeds, stores the new state at
exactly the written coordinate, and leaves every other cell and both
configured dimensions unchanged. -/
theorem set_cellstate_frame (g : Grid) (h v : Nat) (s : CellState)
    (hh : h < g.horizontal_size) (hv : v < g.vertical_size) :
    ∃ g', g.set_cellstate h v s = .ok g' ∧
      g'.cells h v = s ∧
      g'.horizontal_size = g.horizontal_size ∧
      g'.vertical_size = g.vertical_size ∧
      ∀ a b, (a ≠ h ∨ b ≠ v) → g'.cells a b = g.cells a b := by
  refine ⟨_, g.set_cellstate_ok h v s hh hv, by simp, rfl, rfl, fun a b hab => ?_⟩
  have hne : ¬(a = h ∧ b = v) := by tauto
  simp [hne]

/-- C8 witness: the theorem applied on the sample 3×4 grid at (1, 2). -/
theorem set_cellstate_frame_witness :
    ∃ g', sampleGrid.set_cellstate 1 2 CellState.Alive = .ok g' ∧
      g'.cells 1 2 = CellState.Alive ∧
      g'.horizontal_size = sampleGrid.horizontal_size ∧
      g'.vertical_size = sampleGrid.vertical_size ∧
      ∀ a b, (a ≠ 1 ∨ b ≠ 2) → g'.cells a b = sampleGrid.cells a b :=
  set_cellstate_frame sampleGrid 1 2 CellState.Alive (by decide) (by decide)

/-- C9: at every in-bounds coordinate, each of the eight neighbor
functions succeeds and returns a coordinate that is itself in bounds, so
neighbor results can be composed or passed to `get_cellstate` without a
`CoordinateOutOfRange` failure. -/
theorem neighbor_coordinates_in_bounds (g : Grid) (h v : Nat)
    (hh : h < g.horizontal_size) (hv : v < g.vertical_size) :
    (∃ p, g.get_north_coordinate h v = .ok p ∧
      p.1 < g.horizontal_size ∧ p.2 < g.vertical_size) ∧
    (∃ p, g.get_east_coordinate h v = .ok p ∧
      p.1 < g.horizontal_size ∧ p.2 < g.vertical_size) ∧
    (∃ p, g.get_south_coordinate h v = .ok p ∧
      p.1 < g.horizontal_size ∧ p.2 < g.vertical_size) ∧
    (∃ p, g.get_west_coordinate h v = .ok p ∧
      p.1 < g.horizontal_size ∧ p.2 < g.vertical_size) ∧
    (∃ p, g.get_northeast_coordinate h v = .ok p ∧
      p.1 < g.horizontal_size ∧ p.2 < g.vertical_size) ∧
    (∃ p, g.get_southeast_coordinate h v = .ok p ∧
      p.1 < g.horizontal_size ∧ p.2 < g.vertical_size) ∧
    (∃ p, g.get_southwest_coordinate h v = .ok p ∧
      p.1 < g.horizontal_size ∧ p.2 < g.vertical_size) ∧
    (∃ p, g.get_northwest_coordinate h v = .ok p ∧
      p.1 < g.horizontal_size ∧ p.2 < g.vertical_size) :=
  ⟨g.get_north_coordinate_in_bounds hh hv,
   g.get_east_coordinate_in_bounds hh hv,
   g.get_south_coordinate_in_bounds hh hv,
   g.get_west_coordinate_in_bounds hh hv,
   g.get_northeast_coordinate_in_bounds hh hv,
   g.get_southeast_coordinate_in_bounds hh hv,
   g.get_southwest_coordinate_in_bounds hh hv,
   g.get_northwest_coordinate_in_bounds hh hv⟩

/-- C9 witness: the theorem applied on the sample 3×4 grid at the corner
(0, 0), where west and north both wrap. -/
theorem neighbor_coordinates_in_bounds_witness :
    (∃ p, sampleGrid.get_north_coordinate 0 0 = .ok p ∧
      p.1 < sampleGrid.horizontal_size ∧ p.2 < sampleGrid.vertical_size) ∧
    (∃ p, sampleGrid.get_east_coordinate 0 0 = .ok p ∧
      p.1 < sampleGrid.horizontal_size ∧ p.2 < sampleGrid.vertical_size) ∧
    (∃ p, sampleGrid.get_south_coordinate 0 0 = .ok p ∧
      p.1 < sampleGrid.horizontal_size ∧ p.2 < sampleGrid.vertical_size) ∧
    (∃ p, sampleGrid.get_west_coordinate 0 0 = .ok p ∧
      p.1 < sampleGrid.horizontal_size ∧ p.2 < sampleGrid.vertical_size) ∧
    (∃ p, sampleGrid.get_northeast_coordinate 0 0 = .ok p ∧
      p.1 < sampleGrid.horizontal_size ∧ p.2 < sampleGrid.vertical_size) ∧
    (∃ p, sampleGrid.get_southeast_coordinate 0 0 = .ok p ∧
      p.1 < sampleGrid.horizontal_size ∧ p.2 < sampleGrid.vertical_size) ∧
    (∃ p, sampleGrid.get_southwest_coordinate 0 0 = .ok p ∧
      p.1 < sampleGrid.horizontal_size ∧ p.2 < sampleGrid.vertical_size) ∧
    (∃ p, sampleGrid.get_northwest_coordinate 0 0 = .ok p ∧
      p.1 < sampleGrid.horizontal_size ∧ p.2 < sampleGrid.vertical_size) :=
  neighbor_coordinates_in_bounds sampleGrid 0 0 (by decide) (by decide)

/-- C10: for u8-ranged sizes (≤ 255) the capacity guard of `Grid::new`
is unreachable — the reserved capacity is exactly 255 in each axis — so
construction succeeds precisely when both sizes are nonzero. -/
theorem grid_new_u8_succeeds_iff_nonzero (h v : Nat)
    (hh : h ≤ 255) (hv : v ≤ 255) :
    HORIZONTAL_MAX = 255 ∧ VERTICAL_MAX = 255 ∧
    ((∃ g, Grid.new h v = .ok g) ↔ (h ≠ 0 ∧ v ≠ 0)) := by
  refine ⟨rfl, rfl, ?_, ?_⟩
  · rintro ⟨g, hg⟩
    unfold Grid.new at hg
    split_ifs at hg with h1 h2 h3 h4
    exact ⟨h1, h2⟩
  · rintro ⟨h0, v0⟩
    exact ⟨_, Grid.new_ok_of h v h0 v0 hh hv⟩

/-- C10 witness: the theorem applied at the maximal u8 sizes (255, 255),
where construction succeeds. -/
theorem grid_new_u8_succeeds_iff_nonzero_witness :
    HORIZONTAL_MAX = 255 ∧ VERTICAL_MAX = 255 ∧
    ((∃ g, Grid.new 255 255 = .ok g) ↔ ((255 : Nat) ≠ 0 ∧ (255 : Nat) ≠ 0)) :=
  grid_new_u8_succeeds_iff_nonzero 255 255 (Nat.le_refl 255) (Nat.le_refl 255)

/-! ## The Rule 30 end-to-end scenario -/

/-- The `rule30` transition rule from the repository's
`universe_update_rule30` test (Wolfram rule 30 over the
west/self/east neighborhood).  The Rust accessors return plain values
and would panic out of range; for in-bounds coordinates those panics
cannot occur (`neighbor_coordinates_in_bounds`), so the embedding
returns `Dead` in the unreachable error branches. -/
def rule30 (h v : Nat) (g : Grid) : CellState :=
  match g.get_west_coordinate h v, g.get_east_coordinate h v with
  | .ok left, .ok right =>
    match g.get_cellstate_hv left, g.get_cellstate h v, g.get_cellstate_hv right with
    | .ok CellState.Alive, .ok CellState.Alive, .ok CellState.Alive => CellState.Dead
    | .ok CellState.Alive, .ok CellState.Alive, .ok CellState.Dead => CellState.Dead
    | .ok CellState.Alive, .ok CellState.Dead, .ok CellState.Alive => CellState.Dead
    | .ok CellState.Alive, .ok CellState.Dead, .ok CellState.Dead => CellState.Alive
    | .ok CellState.Dead, .ok CellState.Alive, .ok CellState.Alive => CellState.Alive
    | .ok CellState.Dead, .ok CellState.Alive, .ok CellState.Dead => CellState.Alive
    | .ok CellState.Dead, .ok CellState.Dead, .ok CellState.Alive => CellState.Alive
    | .ok CellState.Dead, .ok CellState.Dead, .ok CellState.Dead => CellState.Dead
    | _, _, _ => CellState.Dead
  | _, _ => CellState.Dead

/-- The scenario of the spec's §8 and the `universe_update_rule30` test:
a 3×1 universe under `rule30`, the middle cell set `Alive`, then `n`
calls to `update()`. -/
def rule30Scenario (n : Nat) : Except GridError Universe := do
  let u ← Universe.new 3 1 rule30
  let g ← u.grid.set_cellstate 1 0 CellState.Alive
  Universe.updateN { u with grid := g } n

/-- The three live states of a 3×1 universe, at columns 0, 1, 2. -/
def liveRow3 (u : Universe) : CellState × CellState × CellState :=
  (u.grid.cells 0 0, u.grid.cells 1 0, u.grid.cells 2 0)

/-- Invariant of the scenario after it dies out: a 3×1 universe running
`rule30` whose in-bounds live cells are all dead. -/
def AllDead31 (u : Universe) : Prop :=
  u.grid.horizontal_size = 3 ∧ u.grid.vertical_size = 1 ∧
  u.shadow.horizontal_size = 3 ∧ u.shadow.vertical_size = 1 ∧
  u.automaton = rule30 ∧
  ∀ a, a < 3 → u.grid.cells a 0 = CellState.Dead

/-- On a 3×1 grid whose in-bounds cells are all dead, `rule30` yields
`Dead` at every in-bounds coordinate. -/
theorem rule30_dead_of_allDead {g : Grid}
    (hH : g.horizontal_size = 3) (hV : g.vertical_size = 1)
    (hc : ∀ a, a < 3 → g.cells a 0 = CellState.Dead)
    {h : Nat} (hh : h < 3) : rule30 h 0 g = CellState.Dead := by
  have h0 : g.cells 0 0 = CellState.Dead := hc 0 (by omega)
  have h1 : g.cells 1 0 = CellState.Dead := hc 1 (by omega)
  have h2 : g.cells 2 0 = CellState.Dead := hc 2 (by omega)
  interval_cases h <;>
    simp [rule30, Grid.get_west_coordinate, Grid.get_east_coordinate,
      Grid.get_cellstate_hv, Grid.get_cellstate, hH, hV, h0, h1, h2]

/-- One `update()` preserves the all-dead 3×1 invariant. -/
theorem allDead31_step {u : Universe} (hu : AllDead31 u) :
    ∃ u', u.update = .ok u' ∧ AllDead31 u' := by
  obtain ⟨hgH, hgV, hsH, hsV, hauto, hcells⟩ := hu
  refine ⟨_, u.update_ok (by rw [hsH, hgH]) (by rw [hsV, hgV]),
    hgH, hgV, hsH, hsV, hauto, ?_⟩
  intro a ha
  show (if a < u.grid.horizontal_size ∧ 0 < u.grid.vertical_size
    then u.automaton a 0 u.grid else u.grid.cells a 0) = CellState.Dead
  rw [if_pos ⟨by omega, by omega⟩, hauto]
  exact rule30_dead_of_allDead hgH hgV hcells ha

/-- Unfolding one step of the scenario: one more `update()`. -/
theorem rule30Scenario_succ (n : Nat) :
    rule30Scenario (n + 1) = (rule30Scenario n).bind Universe.update := rfl

/-- From the second generation on, the scenario satisfies the all-dead
invariant. -/
theorem rule30Scenario_allDead (n : Nat) :
    ∃ u, rule30Scenario (2 + n) = .ok u ∧ AllDead31 u := by
  induction n with
  | zero =>
      refine ⟨_, rfl, rfl, rfl, rfl, rfl, rfl, ?_⟩
      decide
  | succ n ih =>
      obtain ⟨u, hsc, hinv⟩ := ih
      obtain ⟨u', hup, hinv'⟩ := allDead31_step hinv
      refine ⟨u', ?_, hinv'⟩
      show rule30Scenario ((2 + n) + 1) = .ok u'
      rw [rule30Scenario_succ, hsc]
      exact hup

/-- C2: the Rule 30 scenario on the 3×1 strip with initial live states
[Dead, Alive, Dead]: after one `update()` the live states are
[Alive, Alive, Alive]; after a second they are [Dead, Dead, Dead]; and
they remain [Dead, Dead, Dead] after every subsequent `update()`. -/
theorem rule30_scenario_states :
    (rule30Scenario 1).map liveRow3 =
      .ok (CellState.Alive, CellState.Alive, CellState.Alive) ∧
    (rule30Scenario 2).map liveRow3 =
      .ok (CellState.Dead, CellState.Dead, CellState.Dead) ∧
    ∀ n, (rule30Scenario (2 + n)).map liveRow3 =
      .ok (CellState.Dead, CellState.Dead, CellState.Dead) := by
  refine ⟨rfl, rfl, fun n => ?_⟩
  obtain ⟨u, hsc, ⟨-, -, -, -, -, hcells⟩⟩ := rule30Scenario_allDead n
  rw [hsc]
  show Except.ok (liveRow3 u) = _
  rw [show liveRow3 u =
    (CellState.Dead, CellState.Dead, CellState.Dead) from by
      unfold liveRow3
      rw [hcells 0 (by omega), hcells 1 (by omega), hcells 2 (by omega)]]

/-- C2 witness: the generic tail of the theorem instantiated five
generations after the die-out. -/
theorem rule30_scenario_states_witness :
    (rule30Scenario (2 + 5)).map liveRow3 =
      .ok (CellState.Dead, CellState.Dead, CellState.Dead) :=
  rule30_scenario_states.2.2 5
